import Mathlib

/-!
Verification of the CollegeVault step-up authentication / one-time-code flow.

The repository contains two parallel implementations of the flow:
* a ledger-backed one (`src/unnamed/part_010` handlers over
  `src/server/database/database.ts` `otpService`), called "production" below;
* an in-memory one (`src/server/routes/auth.ts` with the `downloadOTPs` map,
  and `src/server/routes/documents.ts` with the per-document `otps` map),
  called "dev" below.

Both are embedded shallowly.  External effects (bcrypt comparison, SMTP and
Twilio delivery, token decoding of the session bearer) are modelled as boolean
or string inputs that carry the outcome of the external call; everything the
handlers themselves compute is translated directly from the source.
-/

namespace CollegeVault

/-- A structured handler response: `success` and `message` are the JSON body
fields, `status` the HTTP status code the handler sets. -/
structure Resp where
  success : Bool
  status : Nat
  message : String
deriving DecidableEq, Repr

/-- A user record (`users` table / `users.json`): only the fields the step-up
flow reads. -/
structure User where
  id : String
  name : String
  email : String
  phone : String
  password : String
deriving DecidableEq, Repr

/-! ## Delivery gateway (`src/server/services/otpService.ts`, part_012)

`sendOTPEmail` / `sendOTPSMS` call external providers; their outcomes enter the
model as the booleans `emailOk` / `smsOk`.  `sendOTPToEmailAndPhone` combines
them exactly as the source does. -/

/-- Result of `sendOTPToEmailAndPhone` (part_012 lines 136-171). -/
structure OTPResult where
  success : Bool
  message : String
  emailSent : Bool
  smsSent : Bool
deriving DecidableEq, Repr

/-- `sendOTPToEmailAndPhone`: runs both channels, succeeds if at least one
channel succeeded, and builds the message the source builds. -/
def sendOTPToEmailAndPhone (emailOk smsOk : Bool) : OTPResult :=
  let message :=
    if emailOk && smsOk then "OTP sent to both email and phone successfully"
    else if emailOk then "OTP sent to email successfully (SMS failed)"
    else if smsOk then "OTP sent to phone successfully (Email failed)"
    else "Failed to send OTP to both email and phone"
  { success := emailOk || smsOk
    message := message
    emailSent := emailOk
    smsSent := smsOk }

/-! ## Time and the SQLite text comparison

The production ledger stores `expires_at` as the string produced by JavaScript
`new Date(...).toISOString()` (format `YYYY-MM-DDTHH:MM:SS.mmmZ`) and filters
with the SQL condition `expires_at > datetime(now)`, and SQLite renders the
current instant as `YYYY-MM-DD HH:MM:SS`.  Both operands are TEXT, so
SQLite compares them with the BINARY collation, i.e. bytewise.  We model a UTC
instant as a field record, render both text formats exactly, and compare
bytewise. -/

/-- A UTC instant, split into calendar fields (all `Nat`). -/
structure UtcTime where
  year : Nat
  month : Nat
  day : Nat
  hour : Nat
  minute : Nat
  second : Nat
  millisecond : Nat
deriving DecidableEq, Repr

/-- Left-pad the decimal rendering of `n` with zeros to width `w`. -/
def padNat (w n : Nat) : String :=
  let s := toString n
  String.mk (List.replicate (w - s.length) '0') ++ s

/-- JavaScript `Date.prototype.toISOString`: `YYYY-MM-DDTHH:MM:SS.mmmZ`. -/
def toISOString (t : UtcTime) : String :=
  padNat 4 t.year ++ "-" ++ padNat 2 t.month ++ "-" ++ padNat 2 t.day ++ "T" ++
  padNat 2 t.hour ++ ":" ++ padNat 2 t.minute ++ ":" ++ padNat 2 t.second ++
  "." ++ padNat 3 t.millisecond ++ "Z"

/-- SQLite rendering of the current instant: `YYYY-MM-DD HH:MM:SS`. -/
def sqliteDatetime (t : UtcTime) : String :=
  padNat 4 t.year ++ "-" ++ padNat 2 t.month ++ "-" ++ padNat 2 t.day ++ " " ++
  padNat 2 t.hour ++ ":" ++ padNat 2 t.minute ++ ":" ++ padNat 2 t.second

/-- Bytewise (BINARY-collation) strict order on character lists: at the first
differing position the smaller code point decides; a strict prefix is
smaller. -/
def charsLt : List Char → List Char → Bool
  | [], [] => false
  | [], _ :: _ => true
  | _ :: _, [] => false
  | a :: as, b :: bs =>
      if a.val < b.val then true
      else if b.val < a.val then false
      else charsLt as bs

/-- SQLite TEXT comparison `a < b` under the BINARY collation (our strings are
ASCII, so bytewise and codepoint-wise agree). -/
def textLt (a b : String) : Bool := charsLt a.data b.data

/-- Chronological strict order on UTC instants (lexicographic on the calendar
fields; correct for valid field values). -/
def utcLt (a b : UtcTime) : Bool :=
  if a.year ≠ b.year then a.year < b.year
  else if a.month ≠ b.month then a.month < b.month
  else if a.day ≠ b.day then a.day < b.day
  else if a.hour ≠ b.hour then a.hour < b.hour
  else if a.minute ≠ b.minute then a.minute < b.minute
  else if a.second ≠ b.second then a.second < b.second
  else a.millisecond < b.millisecond

/-! ## One-time-code ledger (`src/server/database/database.ts`, `otpService`) -/

/-- A row of the `otp_sessions` table.  `expires_at` is the TEXT value the
caller stored (part_010 stores an ISO-8601 string); `created_at` is the
insertion instant (`DATETIME DEFAULT CURRENT_TIMESTAMP`), modelled as a `Nat`
so that `ORDER BY created_at DESC` is a maximum. -/
structure OTPSession where
  id : String
  user_id : String
  otp_code : String
  purpose : String
  expires_at : String
  used : Bool
  created_at : Nat
deriving DecidableEq, Repr

/-- The row filter of `otpService.findValidSession`:
`user_id = ? AND otp_code = ? AND purpose = ? AND used = 0 AND
expires_at > datetime of the current instant`. -/
def matchesSession (userId otpCode purpose : String) (now : UtcTime)
    (s : OTPSession) : Bool :=
  s.user_id == userId && s.otp_code == otpCode && s.purpose == purpose &&
  !s.used && textLt (sqliteDatetime now) s.expires_at

/-- Accumulator for `ORDER BY created_at DESC LIMIT 1`: keep the row with the
larger `created_at`. -/
def pickLatest (acc : Option OTPSession) (s : OTPSession) : Option OTPSession :=
  match acc with
  | none => some s
  | some b => if b.created_at < s.created_at then some s else some b

/-- `otpService.findValidSession` (database.ts lines 311-320): among matching
rows, `ORDER BY created_at DESC LIMIT 1` returns the most recently created
one. -/
def findValidSession (sessions : List OTPSession)
    (userId otpCode purpose : String) (now : UtcTime) : Option OTPSession :=
  (sessions.filter (matchesSession userId otpCode purpose now)).foldl
    pickLatest none

/-- `otpService.markAsUsed` (database.ts lines 322-326):
`UPDATE otp_sessions SET used = 1 WHERE id = ?`, returning
`result.changes > 0`.  The SQLite change counter counts every row matched by
the `WHERE` clause, whether or not the stored value differs, so the boolean is
"a row with this id exists". -/
def markAsUsed (sessions : List OTPSession) (id : String) :
    List OTPSession × Bool :=
  (sessions.map (fun s => if s.id == id then { s with used := true } else s),
   sessions.any (fun s => s.id == id))

/-- `otpService.create` (database.ts lines 297-309): a pure insert of a fresh
row with `used` defaulted to 0. -/
def otpCreate (sessions : List OTPSession)
    (freshId userId otpCode purpose expiresAt : String) (createdAt : Nat) :
    List OTPSession :=
  { id := freshId, user_id := userId, otp_code := otpCode, purpose := purpose,
    expires_at := expiresAt, used := false, created_at := createdAt } :: sessions

/-! ## Production step-up handlers (`src/unnamed/part_010`)

Both handlers first decode the bearer token and look the user up; the token
decode is modelled as the already-resolved `userId`, and the bcrypt comparison
`await verifyPassword(password, user.password)` as the boolean
`passwordValid`. -/

/-- Output of the production `handleVerifyPasswordForDownload`: the ledger
after the call, the HTTP response, and which channels actually delivered. -/
structure StepUpOut where
  sessions : List OTPSession
  resp : Resp
  emailDelivered : Bool
  smsDelivered : Bool
deriving DecidableEq, Repr

/-- Production `handleVerifyPasswordForDownload` (part_010 lines 320-422),
from the user lookup on: password check, environment check, ledger insert of a
fresh 5-minute code, dual-channel delivery; both channels failing aborts with
HTTP 500 and `success:false`. -/
def prodRequestStepUp (users : List User) (sessions : List OTPSession)
    (userId : String) (passwordValid envConfigured : Bool)
    (freshId otp expiresAtIso : String) (createdAt : Nat)
    (emailOk smsOk : Bool) : StepUpOut :=
  match users.find? (fun u => u.id == userId) with
  | none => ⟨sessions, ⟨false, 404, "User not found"⟩, false, false⟩
  | some user =>
    if !passwordValid then
      ⟨sessions, ⟨false, 401, "Invalid password"⟩, false, false⟩
    else if !envConfigured then
      ⟨sessions,
       ⟨false, 503,
        "OTP services are not configured. Please contact system administrator."⟩,
       false, false⟩
    else
      let sessions' := otpCreate sessions freshId user.id otp
        "document_download" expiresAtIso createdAt
      let r := sendOTPToEmailAndPhone emailOk smsOk
      if !r.success then
        ⟨sessions', ⟨false, 500, r.message⟩, r.emailSent, r.smsSent⟩
      else
        ⟨sessions', ⟨true, 200, r.message⟩, r.emailSent, r.smsSent⟩

/-- Production `handleVerifyDownloadOTP` (part_010 lines 424-500), from the
body check on: empty code rejected, user looked up, `findValidSession`
consulted, a found row marked used. -/
def prodVerifyDownloadOTP (users : List User) (sessions : List OTPSession)
    (userId otp : String) (now : UtcTime) : List OTPSession × Resp :=
  if otp == "" then (sessions, ⟨false, 400, "OTP is required"⟩)
  else
    match users.find? (fun u => u.id == userId) with
    | none => (sessions, ⟨false, 404, "User not found"⟩)
    | some user =>
      match findValidSession sessions user.id otp "document_download" now with
      | none =>
        (sessions,
         ⟨false, 400, "Invalid or expired OTP. Please verify your password again."⟩)
      | some s =>
        ((markAsUsed sessions s.id).1, ⟨true, 200, "OTP verified successfully"⟩)

/-! ## Dev in-memory step-up handlers (`src/server/routes/auth.ts`)

Here the pending download codes live in the module-level JavaScript object
`downloadOTPs: { [userId]: { code, expiresAt } }`, modelled as a partial map
from user ids; `expiresAt` is an epoch-milliseconds number
(`Date.now() + 5 * 60 * 1000`). -/

/-- One `downloadOTPs` entry: a code and its epoch-ms expiry. -/
structure DevOTP where
  code : String
  expiresAt : Nat
deriving DecidableEq, Repr

/-- The `downloadOTPs` object: user id to pending entry. -/
def DevStore : Type := String → Option DevOTP

/-- Dev `handleVerifyPasswordForDownload` (auth.ts lines 389-483), from the
user lookup on: password check, then `downloadOTPs[user.id] = { code, now+5min }`,
then delivery; the response is `success:true` whether or not any channel
delivered (delivery failure only changes the message and logs the code to the
console). -/
def devRequestStepUp (users : List User) (store : DevStore)
    (userId : String) (passwordValid : Bool) (otp : String) (nowMs : Nat)
    (emailOk smsOk : Bool) : DevStore × Resp :=
  match users.find? (fun u => u.id == userId) with
  | none => (store, ⟨false, 404, "User not found"⟩)
  | some user =>
    if !passwordValid then (store, ⟨false, 401, "Invalid password"⟩)
    else
      let store' : DevStore := fun k =>
        if k == user.id then some ⟨otp, nowMs + 5 * 60 * 1000⟩ else store k
      let r := sendOTPToEmailAndPhone emailOk smsOk
      (store',
       ⟨true, 200,
        if r.success then r.message
        else "Password verified. OTP sent for document download. Check console for development OTP (configure SMTP/Twilio for real sending)."⟩)

/-- Dev `handleVerifyDownloadOTP` (auth.ts lines 483-575), from the body check
on: empty code rejected, user looked up, then the `downloadOTPs` entry is
checked — absent, expired (`Date.now() > expiresAt`, deleting the entry),
mismatching, or consumed by deletion on success. -/
def devVerifyDownloadOTP (users : List User) (store : DevStore)
    (userId otp : String) (nowMs : Nat) : DevStore × Resp :=
  if otp == "" then (store, ⟨false, 400, "OTP is required"⟩)
  else
    match users.find? (fun u => u.id == userId) with
    | none => (store, ⟨false, 404, "User not found"⟩)
    | some user =>
      match store user.id with
      | none =>
        (store, ⟨false, 400, "No OTP found. Please verify your password first."⟩)
      | some st =>
        if st.expiresAt < nowMs then
          (fun k => if k == user.id then none else store k,
           ⟨false, 400, "OTP expired. Please verify your password again."⟩)
        else if st.code != otp then
          (store, ⟨false, 401, "Invalid OTP"⟩)
        else
          (fun k => if k == user.id then none else store k,
           ⟨true, 200, "OTP verified successfully"⟩)

/-! ## Document directory (`src/server/routes/documents.ts`)

Documents live in the module-level array `documents`; per-document pending
codes in the object `otps: { [documentId]: { code, expiresAt, contact } }`.
The download-authorization token is the Buffer base64 encoding of the text
`id:timestamp`, decoded and split at `:` by `handleGetFile`.  Node base64
round-trips every string and its decode is total and surjective, so the token
is modelled at the payload (decoded-string) level. -/

/-- A `documents` array element: the fields the delete / OTP / file handlers
read. -/
structure Document where
  id : String
  userId : String
  name : String
  fileUrl : String
  isSecure : Bool
deriving DecidableEq, Repr

/-- One `otps` entry for a document. -/
structure DocOTP where
  code : String
  expiresAt : Nat
  contact : String
deriving DecidableEq, Repr

/-- The `otps` object: document id to pending entry. -/
def DocOtpStore : Type := String → Option DocOTP

/-- The download-token payload minted on OTP success
(documents.ts line 424): `${documentId}:${Date.now()}` (then base64-encoded
for the wire, modelled as identity transport). -/
def mintPayload (documentId : String) (nowMs : Nat) : String :=
  documentId ++ ":" ++ toString nowMs

/-- The characters before the first `:` — JavaScript
`decoded.split(':')[0]` (the whole string when there is no `:`). -/
def takeUntilColon : List Char → List Char
  | [] => []
  | c :: rest => if c = ':' then [] else c :: takeUntilColon rest

/-- The token check of `handleGetFile` (documents.ts lines 500-508): decode, take
the segment before the first `:`, compare to the requested document id.  Total:
no input throws. -/
def verifyToken (payload docId : String) : Bool :=
  String.mk (takeUntilColon payload.data) == docId

/-- `handleDeleteDocument` (documents.ts lines 236-278), after auth: find the
first document with this id owned by the caller; absent is a 404; otherwise
splice it out and `delete otps[id]`. -/
def handleDeleteDocument (docs : List Document) (otps : DocOtpStore)
    (userId docId : String) : List Document × DocOtpStore × Resp :=
  if docs.any (fun d => d.id == docId && d.userId == userId) then
    (docs.eraseP (fun d => d.id == docId && d.userId == userId),
     fun k => if k == docId then none else otps k,
     ⟨true, 200, "Document deleted successfully"⟩)
  else
    (docs, otps, ⟨false, 404, "Document not found"⟩)

/-- `handleVerifyOTP` (documents.ts lines 371-443), after auth: look the
document up by id and owner, then the `otps` entry — absent, expired
(`Date.now() > expiresAt`, deleting the entry), mismatching, or consumed by
deletion on success (which mints the download token payload). -/
def docVerifyOTP (docs : List Document) (otps : DocOtpStore)
    (userId docId otp : String) (nowMs : Nat) :
    DocOtpStore × Resp × Option String :=
  match docs.find? (fun d => d.id == docId && d.userId == userId) with
  | none => (otps, ⟨false, 404, "Document not found"⟩, none)
  | some doc =>
    match otps docId with
    | none => (otps, ⟨false, 400, "No OTP found. Please request a new one."⟩, none)
    | some st =>
      if st.expiresAt < nowMs then
        (fun k => if k == docId then none else otps k,
         ⟨false, 400, "OTP expired. Please request a new one."⟩, none)
      else if st.code != otp then
        (otps, ⟨false, 401, "Invalid OTP"⟩, none)
      else
        (fun k => if k == docId then none else otps k,
         ⟨true, 200, "OTP verified successfully"⟩,
         some (doc.fileUrl ++ "?token=" ++ mintPayload docId nowMs))

/-- Sample account used by the concrete scenarios below. -/
def sampleUser : User :=
  ⟨"u1", "Test User", "test@example.com", "+1234567890", "bcrypt-hash"⟩

/-! ## Helper lemmas -/

theorem pickLatest_isSome (acc : Option OTPSession) (s : OTPSession) :
    (pickLatest acc s).isSome = true := by
  cases acc with
  | none => rfl
  | some b =>
    simp only [pickLatest]
    split <;> rfl

theorem foldl_pickLatest_isSome (l : List OTPSession) (acc : Option OTPSession)
    (h : acc.isSome = true) : (l.foldl pickLatest acc).isSome = true := by
  induction l generalizing acc with
  | nil => simpa using h
  | cons x xs ih => exact ih _ (pickLatest_isSome acc x)

/-- If some row of the ledger passes the `findValidSession` filter, the query
returns a row. -/
theorem findValidSession_isSome_of_match (sessions : List OTPSession)
    (userId otpCode purpose : String) (now : UtcTime) (r : OTPSession)
    (hr : r ∈ sessions)
    (hm : matchesSession userId otpCode purpose now r = true) :
    (findValidSession sessions userId otpCode purpose now).isSome = true := by
  unfold findValidSession
  have hmem : r ∈ sessions.filter (matchesSession userId otpCode purpose now) :=
    List.mem_filter.mpr ⟨hr, hm⟩
  cases hfl : sessions.filter (matchesSession userId otpCode purpose now) with
  | nil => rw [hfl] at hmem; cases hmem
  | cons a as =>
    rw [List.foldl_cons]
    exact foldl_pickLatest_isSome as (pickLatest none a) (pickLatest_isSome none a)

/-- The production verify response, given a resolved user and a nonempty
submitted code, is decided entirely by whether `findValidSession` found a
row. -/
theorem prodVerify_resp (users : List User) (sessions : List OTPSession)
    (userId otp : String) (now : UtcTime) (u : User)
    (hu : users.find? (fun v => v.id == userId) = some u) (ho : otp ≠ "") :
    (prodVerifyDownloadOTP users sessions userId otp now).2 =
      (match findValidSession sessions u.id otp "document_download" now with
       | none =>
         ⟨false, 400, "Invalid or expired OTP. Please verify your password again."⟩
       | some _ => ⟨true, 200, "OTP verified successfully"⟩) := by
  have hbeq : (otp == "") = false := beq_eq_false_iff_ne.mpr ho
  unfold prodVerifyDownloadOTP
  rw [hbeq]
  simp only [Bool.false_eq_true, if_false, hu]
  cases findValidSession sessions u.id otp "document_download" now <;> rfl

/-- The production verify succeeds whenever some ledger row passes the
filter. -/
theorem prodVerify_success_of_match (users : List User)
    (sessions : List OTPSession) (userId otp : String) (now : UtcTime)
    (u : User) (r : OTPSession)
    (hu : users.find? (fun v => v.id == userId) = some u) (ho : otp ≠ "")
    (hr : r ∈ sessions)
    (hm : matchesSession u.id otp "document_download" now r = true) :
    (prodVerifyDownloadOTP users sessions userId otp now).2.success = true := by
  have hsome :=
    findValidSession_isSome_of_match sessions u.id otp "document_download" now r hr hm
  obtain ⟨s, hs⟩ := Option.isSome_iff_exists.mp hsome
  rw [prodVerify_resp users sessions userId otp now u hu ho, hs]

/-- Mapping the `markAsUsed` row update over the ledger changes no row id, so
the existence test for an id is unchanged. -/
theorem any_id_markUpdate (l : List OTPSession) (i : String) :
    ((l.map (fun s => if s.id == i then { s with used := true } else s)).any
      (fun s => s.id == i)) = l.any (fun s => s.id == i) := by
  induction l with
  | nil => rfl
  | cons x xs ih =>
    simp only [List.map_cons, List.any_cons, ih]
    cases h : x.id == i with
    | false => simp [h]
    | true => simp [h]

/-- Marking a row used changes no row id, so the change counter of a second
identical UPDATE equals that of the first. -/
theorem markAsUsed_twice_flag (l : List OTPSession) (i : String) :
    (markAsUsed (markAsUsed l i).1 i).2 = (markAsUsed l i).2 := by
  unfold markAsUsed
  exact any_id_markUpdate l i

/-- The UPDATE of `markAsUsed` is idempotent on the stored rows. -/
theorem markAsUsed_idem_state (l : List OTPSession) (i : String) :
    (markAsUsed (markAsUsed l i).1 i).1 = (markAsUsed l i).1 := by
  unfold markAsUsed
  induction l with
  | nil => rfl
  | cons x xs ih =>
    simp only [List.map_cons, List.cons.injEq] at *
    refine ⟨?_, ih⟩
    cases h : x.id == i with
    | false => simp [h]
    | true => simp [h]

/-- An element not matching the predicate survives `List.eraseP`. -/
theorem mem_eraseP_of_not_match {p : Document → Bool} {d : Document}
    {l : List Document} (hd : d ∈ l) (hp : p d = false) : d ∈ l.eraseP p := by
  induction l with
  | nil => cases hd
  | cons a as ih =>
    rw [List.eraseP_cons]
    rcases List.mem_cons.mp hd with rfl | h
    · rw [hp]
      exact List.mem_cons_self _ _
    · cases hpa : p a with
      | true => simpa [hpa] using h
      | false => simpa [hpa] using Or.inr (ih h)

/-- `split(':')[0]` of `d ++ ":" ++ rest` recovers `d` when `d` is
colon-free. -/
theorem takeUntilColon_append_colon (d rest : List Char) (h : ':' ∉ d) :
    takeUntilColon (d ++ ':' :: rest) = d := by
  induction d with
  | nil => simp [takeUntilColon]
  | cons c cs ih =>
    have hc : c ≠ ':' := by
      intro hcc
      exact h (hcc ▸ List.mem_cons_self c cs)
    simp only [List.cons_append, takeUntilColon, if_neg hc]
    exact congrArg (List.cons c) (ih (fun hm => h (List.mem_cons_of_mem _ hm)))

/-- `String.append` concatenates the underlying character lists. -/
theorem string_data_append (a b : String) : (a ++ b).data = a.data ++ b.data := by
  cases a
  cases b
  rfl

/-- The minted payload decodes to its document id when the id is colon-free. -/
theorem firstField_mintPayload (d : String) (t : Nat) (h : ':' ∉ d.data) :
    takeUntilColon (mintPayload d t).data = d.data := by
  unfold mintPayload
  rw [string_data_append, string_data_append]
  have hcolon : (":" : String).data = [':'] := rfl
  rw [hcolon, List.append_assoc, List.singleton_append]
  exact takeUntilColon_append_colon d.data (toString t).data h

/-! ## Claim theorems -/

/-- C1: the production `VerifyStepUp` is claimed to succeed only when an
unconsumed, *unexpired* matching ledger row exists.  The code violates this:
`findValidSession` compares the TEXT column `expires_at` (an ISO-8601 string
such as `2026-10-11T10:00:00.000Z`) against the SQLite now-string (rendered
`2026-10-11 11:00:00`); at the first position where the formats differ, `'T'`
is greater than `' '`, so the SQL test `expires_at > datetime('now')` holds for
any same-UTC-day pair.  Here the stored code expired at 10:00:00 UTC and is
submitted at 11:00:00 UTC — chronologically one hour late — yet the handler
answers success, contradicting the claimed 5-minute validity window. -/
theorem c1_ledger_accepts_chronologically_expired_code :
    utcLt ⟨2026, 10, 11, 10, 0, 0, 0⟩ ⟨2026, 10, 11, 11, 0, 0, 0⟩ = true ∧
    (prodVerifyDownloadOTP [sampleUser]
      [⟨"s1", "u1", "123456", "document_download",
        toISOString ⟨2026, 10, 11, 10, 0, 0, 0⟩, false, 0⟩]
      "u1" "123456" ⟨2026, 10, 11, 11, 0, 0, 0⟩).2.success = true := by
  exact ⟨rfl, rfl⟩

/-- C2 counterexample: in the dev implementation
(`auth.ts` `handleVerifyPasswordForDownload`), a correct password with *both*
delivery channels failing still yields `success:true` — the handler stores the
code, logs it to the console and reports success, where the claim demands
`success:false`. -/
theorem c2_dev_step_up_succeeds_when_both_channels_fail :
    (devRequestStepUp [sampleUser] (fun _ => none) "u1" true "123456" 0
      false false).2 =
    ⟨true, 200,
     "Password verified. OTP sent for document download. Check console for development OTP (configure SMTP/Twilio for real sending)."⟩ := by
  exact rfl

/-- C2 (amended): in the ledger-backed production implementation, a step-up
request whose password check succeeded but whose email and SMS sends both
failed answers `success:false` (HTTP 500 or 503) and delivers on no channel,
whatever the environment configuration. -/
theorem c2_prod_step_up_fails_when_both_channels_fail (users : List User)
    (sessions : List OTPSession) (userId freshId otp expIso : String)
    (createdAt : Nat) (envConfigured : Bool) :
    (prodRequestStepUp users sessions userId true envConfigured freshId otp
      expIso createdAt false false).resp.success = false ∧
    (prodRequestStepUp users sessions userId true envConfigured freshId otp
      expIso createdAt false false).emailDelivered = false ∧
    (prodRequestStepUp users sessions userId true envConfigured freshId otp
      expIso createdAt false false).smsDelivered = false := by
  unfold prodRequestStepUp
  cases users.find? (fun u => u.id == userId) with
  | none => exact ⟨rfl, rfl, rfl⟩
  | some u => cases envConfigured <;> exact ⟨rfl, rfl, rfl⟩

/-- C3 counterexample: in the dev implementation the expiry test is
`Date.now() > storedOTP.expiresAt`, so a correct code submitted at exactly
`expiresAt` (here 300000 ms) is *accepted*, where the claim demands
rejection. -/
theorem c3_dev_accepts_code_at_exact_expiry :
    (devVerifyDownloadOTP [sampleUser]
      (fun k => if k == "u1" then some ⟨"123456", 300000⟩ else none)
      "u1" "123456" 300000).2 = ⟨true, 200, "OTP verified successfully"⟩ := by
  exact rfl

/-- C3 (amended): in the in-memory implementation a correct stored code is
accepted one millisecond before `expiresAt` and also at exactly `expiresAt`,
and rejected one millisecond after — rejection begins strictly after the
stored instant. -/
theorem c3_dev_expiry_boundary (users : List User) (store : DevStore)
    (userId code : String) (u : User) (st : DevOTP)
    (hu : users.find? (fun v => v.id == userId) = some u)
    (hst : store u.id = some st) (hcode : st.code = code) (hne : code ≠ "") :
    (devVerifyDownloadOTP users store userId code (st.expiresAt - 1)).2.success
      = true ∧
    (devVerifyDownloadOTP users store userId code st.expiresAt).2.success
      = true ∧
    (devVerifyDownloadOTP users store userId code (st.expiresAt + 1)).2.success
      = false := by
  have hbeq : (code == "") = false := beq_eq_false_iff_ne.mpr hne
  have hcbne : (st.code != code) = false := by
    rw [hcode]
    simp
  unfold devVerifyDownloadOTP
  rw [hbeq]
  simp only [Bool.false_eq_true, if_false, hu, hst]
  refine ⟨?_, ?_, ?_⟩
  · rw [if_neg (Nat.not_lt.mpr (Nat.sub_le st.expiresAt 1)), hcbne]
    rfl
  · rw [if_neg (Nat.lt_irrefl st.expiresAt), hcbne]
    rfl
  · rw [if_pos (Nat.lt_succ_self st.expiresAt)]

/-- Witness for `c3_dev_expiry_boundary` at a concrete store. -/
theorem c3_dev_expiry_boundary_witness :
    [sampleUser].find? (fun v => v.id == "u1") = some sampleUser ∧
    (fun k => if k == "u1" then some (⟨"123456", 300000⟩ : DevOTP) else none)
      sampleUser.id = some ⟨"123456", 300000⟩ ∧
    ((devVerifyDownloadOTP [sampleUser]
        (fun k => if k == "u1" then some ⟨"123456", 300000⟩ else none)
        "u1" "123456" 299999).2.success = true ∧
     (devVerifyDownloadOTP [sampleUser]
        (fun k => if k == "u1" then some ⟨"123456", 300000⟩ else none)
        "u1" "123456" 300000).2.success = true ∧
     (devVerifyDownloadOTP [sampleUser]
        (fun k => if k == "u1" then some ⟨"123456", 300000⟩ else none)
        "u1" "123456" 300001).2.success = false) :=
  ⟨rfl, rfl,
   c3_dev_expiry_boundary [sampleUser]
     (fun k => if k == "u1" then some ⟨"123456", 300000⟩ else none)
     "u1" "123456" sampleUser ⟨"123456", 300000⟩ rfl rfl rfl (by decide)⟩

/-- C4 counterexample: `markAsUsed` runs
`UPDATE otp_sessions SET used = 1 WHERE id = ?` and returns
`result.changes > 0`; SQLite counts every row matched by the `WHERE` clause,
already-used or not, so the *second* consumption of the same ledger id returns
`true`, where the claim demands `false`. -/
theorem c4_second_consume_returns_true :
    (markAsUsed
      (markAsUsed
        [⟨"s1", "u1", "123456", "document_download",
          "2026-10-11T10:00:00.000Z", false, 0⟩] "s1").1 "s1").2 = true := by
  exact rfl

/-- C4 (amended): `Consume` returns whether a row with the given id exists,
regardless of its consumed state (so a missing id yields `false` and a second
consume of an existing id yields `true` again); the second call changes no
row, so double consumption is a safe no-op on the stored state, and the
operation is total. -/
theorem c4_consume_flag_and_idempotence (sessions : List OTPSession)
    (i : String) :
    (markAsUsed sessions i).2 = sessions.any (fun s => s.id == i) ∧
    (markAsUsed (markAsUsed sessions i).1 i).2 = (markAsUsed sessions i).2 ∧
    (markAsUsed (markAsUsed sessions i).1 i).1 = (markAsUsed sessions i).1 :=
  ⟨rfl, markAsUsed_twice_flag sessions i, markAsUsed_idem_state sessions i⟩

/-- C5 counterexample: `handleGetFile` accepts any token whose decoded text
before the first `:` equals the document id; the colon-free garbage string
`doc1` (which no `Mint` call can produce — every minted payload contains a
`:`) verifies successfully against document `doc1`, where the claim demands
that every non-minted string be rejected. -/
theorem c5_garbage_token_verifies :
    verifyToken "doc1" "doc1" = true ∧
    ("doc1".data.contains ':') = false := by
  exact ⟨rfl, rfl⟩

/-- C5 (amended): for a colon-free document id (ids generated by the upload
handler are built from decimal and base-36 digits, hence colon-free), minting
then verifying against the same id returns `true` and verifying against a
different id returns `false`; verification is total (never throws), but it is
a format check only — any string whose text before the first `:` equals the
id is accepted, so unminted strings are not always rejected. -/
theorem c5_mint_verify_roundtrip (d d' : String) (t : Nat)
    (h : ':' ∉ d.data) (hne : d' ≠ d) :
    verifyToken (mintPayload d t) d = true ∧
    verifyToken (mintPayload d t) d' = false := by
  unfold verifyToken
  rw [firstField_mintPayload d t h]
  have hmk : String.mk d.data = d := by cases d; rfl
  rw [hmk]
  exact ⟨beq_self_eq_true d, beq_eq_false_iff_ne.mpr (fun he => hne he.symm)⟩

/-- Witness for `c5_mint_verify_roundtrip` at concrete ids. -/
theorem c5_mint_verify_roundtrip_witness :
    ':' ∉ "doc1".data ∧ ("doc2" : String) ≠ "doc1" ∧
    (verifyToken (mintPayload "doc1" 7) "doc1" = true ∧
     verifyToken (mintPayload "doc1" 7) "doc2" = false) :=
  ⟨by decide, by decide, c5_mint_verify_roundtrip "doc1" "doc2" 7 (by decide) (by decide)⟩

/-- C6 counterexample: the dev in-memory verify answers an expired code with
HTTP 400 "OTP expired. Please verify your password again." but a wrong code
with HTTP 401 "Invalid OTP" — two failing submissions whose responses differ,
where the claim demands indistinguishability. -/
theorem c6_dev_expired_vs_wrong_code_distinguishable :
    (devVerifyDownloadOTP [sampleUser]
      (fun k => if k == "u1" then some ⟨"111111", 1000⟩ else none)
      "u1" "111111" 2000).2 =
      ⟨false, 400, "OTP expired. Please verify your password again."⟩ ∧
    (devVerifyDownloadOTP [sampleUser]
      (fun k => if k == "u1" then some ⟨"111111", 5000⟩ else none)
      "u1" "222222" 2000).2 = ⟨false, 401, "Invalid OTP"⟩ ∧
    (⟨false, 400, "OTP expired. Please verify your password again."⟩ : Resp) ≠
      ⟨false, 401, "Invalid OTP"⟩ := by
  refine ⟨rfl, rfl, ?_⟩
  decide

/-- C6 (amended): in the ledger-backed production implementation the claim
holds — any two failing code submissions by a resolved user with nonempty
codes receive identical responses (the single
"Invalid or expired OTP" failure), so wrong-code and expired-code states are
indistinguishable from the response. -/
theorem c6_prod_failures_indistinguishable (users : List User)
    (sessions : List OTPSession) (userId otp1 otp2 : String)
    (now1 now2 : UtcTime) (u : User)
    (hu : users.find? (fun v => v.id == userId) = some u)
    (h1 : otp1 ≠ "") (h2 : otp2 ≠ "")
    (hf1 : (prodVerifyDownloadOTP users sessions userId otp1 now1).2.success
      = false)
    (hf2 : (prodVerifyDownloadOTP users sessions userId otp2 now2).2.success
      = false) :
    (prodVerifyDownloadOTP users sessions userId otp1 now1).2 =
      (prodVerifyDownloadOTP users sessions userId otp2 now2).2 := by
  rw [prodVerify_resp users sessions userId otp1 now1 u hu h1] at hf1 ⊢
  rw [prodVerify_resp users sessions userId otp2 now2 u hu h2] at hf2 ⊢
  cases hv1 : findValidSession sessions u.id otp1 "document_download" now1 with
  | some s => rw [hv1] at hf1; cases hf1
  | none =>
    cases hv2 : findValidSession sessions u.id otp2 "document_download" now2 with
    | some s => rw [hv2] at hf2; cases hf2
    | none => rfl

/-- Witness for `c6_prod_failures_indistinguishable`: an empty ledger, codes
`111111` and `222222`. -/
theorem c6_prod_failures_indistinguishable_witness :
    [sampleUser].find? (fun v => v.id == "u1") = some sampleUser ∧
    ("111111" : String) ≠ "" ∧ ("222222" : String) ≠ "" ∧
    (prodVerifyDownloadOTP [sampleUser] [] "u1" "111111"
      ⟨2026, 1, 1, 0, 0, 0, 0⟩).2.success = false ∧
    (prodVerifyDownloadOTP [sampleUser] [] "u1" "222222"
      ⟨2026, 1, 1, 0, 0, 0, 0⟩).2.success = false ∧
    (prodVerifyDownloadOTP [sampleUser] [] "u1" "111111"
      ⟨2026, 1, 1, 0, 0, 0, 0⟩).2 =
      (prodVerifyDownloadOTP [sampleUser] [] "u1" "222222"
        ⟨2026, 1, 1, 0, 0, 0, 0⟩).2 :=
  ⟨rfl, by decide, by decide, rfl, rfl,
   c6_prod_failures_indistinguishable [sampleUser] [] "u1" "111111" "222222"
     ⟨2026, 1, 1, 0, 0, 0, 0⟩ ⟨2026, 1, 1, 0, 0, 0, 0⟩ sampleUser rfl
     (by decide) (by decide) rfl rfl⟩

/-- C7: issuing a new code for an account that already holds an unconsumed,
still-valid `document_download` ledger row adds a second independent row and
leaves the old one untouched; afterwards the production verify accepts the old
code and accepts the new code (each row is only consumed by its own
verification). -/
theorem c7_new_code_leaves_old_code_valid (users : List User)
    (sessions : List OTPSession) (userId freshId otpNew expIsoNew : String)
    (createdAt : Nat) (emailOk smsOk : Bool) (u : User) (r : OTPSession)
    (nowV : UtcTime)
    (hu : users.find? (fun v => v.id == userId) = some u)
    (hch : (emailOk || smsOk) = true)
    (hr : r ∈ sessions)
    (hruser : r.user_id = userId)
    (hrpurp : r.purpose = "document_download")
    (hrused : r.used = false)
    (hrexp : textLt (sqliteDatetime nowV) r.expires_at = true)
    (hrcode : r.otp_code ≠ "")
    (hnewcode : otpNew ≠ "")
    (hexpnew : textLt (sqliteDatetime nowV) expIsoNew = true) :
    (prodRequestStepUp users sessions userId true true freshId otpNew expIsoNew
      createdAt emailOk smsOk).resp.success = true ∧
    (prodRequestStepUp users sessions userId true true freshId otpNew expIsoNew
      createdAt emailOk smsOk).sessions =
      ⟨freshId, u.id, otpNew, "document_download", expIsoNew, false, createdAt⟩
        :: sessions ∧
    (prodVerifyDownloadOTP users
      (prodRequestStepUp users sessions userId true true freshId otpNew
        expIsoNew createdAt emailOk smsOk).sessions userId r.otp_code
      nowV).2.success = true ∧
    (prodVerifyDownloadOTP users
      (prodRequestStepUp users sessions userId true true freshId otpNew
        expIsoNew createdAt emailOk smsOk).sessions userId otpNew
      nowV).2.success = true := by
  have hp := List.find?_some hu
  have huid : u.id = userId := eq_of_beq hp
  have hout : prodRequestStepUp users sessions userId true true freshId otpNew
      expIsoNew createdAt emailOk smsOk =
      ⟨⟨freshId, u.id, otpNew, "document_download", expIsoNew, false,
        createdAt⟩ :: sessions,
       ⟨true, 200, (sendOTPToEmailAndPhone emailOk smsOk).message⟩,
       emailOk, smsOk⟩ := by
    unfold prodRequestStepUp
    rw [hu]
    cases emailOk with
    | true => rfl
    | false =>
      cases smsOk with
      | true => rfl
      | false => exact absurd hch (by decide)
  refine ⟨by rw [hout], by rw [hout], ?_, ?_⟩
  · rw [hout]
    refine prodVerify_success_of_match users _ userId r.otp_code nowV u r hu
      hrcode (List.mem_cons_of_mem _ hr) ?_
    simp [matchesSession, hruser, huid, hrpurp, hrused, hrexp]
  · rw [hout]
    refine prodVerify_success_of_match users _ userId otpNew nowV u
      ⟨freshId, u.id, otpNew, "document_download", expIsoNew, false, createdAt⟩
      hu hnewcode (List.mem_cons_self _ _) ?_
    simp [matchesSession, hexpnew]

/-- Witness for `c7_new_code_leaves_old_code_valid`: an account holding code
`111111`, then issued `222222`; both verify. -/
theorem c7_new_code_leaves_old_code_valid_witness :
    [sampleUser].find? (fun v => v.id == "u1") = some sampleUser ∧
    ((true : Bool) || false) = true ∧
    (⟨"s0", "u1", "111111", "document_download",
       toISOString ⟨2026, 10, 11, 10, 5, 0, 0⟩, false, 0⟩ : OTPSession) ∈
      [(⟨"s0", "u1", "111111", "document_download",
         toISOString ⟨2026, 10, 11, 10, 5, 0, 0⟩, false, 0⟩ : OTPSession)] ∧
    textLt (sqliteDatetime ⟨2026, 10, 11, 10, 1, 0, 0⟩)
      (toISOString ⟨2026, 10, 11, 10, 5, 0, 0⟩) = true ∧
    textLt (sqliteDatetime ⟨2026, 10, 11, 10, 1, 0, 0⟩)
      (toISOString ⟨2026, 10, 11, 10, 6, 0, 0⟩) = true ∧
    (prodVerifyDownloadOTP [sampleUser]
      (prodRequestStepUp [sampleUser]
        [⟨"s0", "u1", "111111", "document_download",
          toISOString ⟨2026, 10, 11, 10, 5, 0, 0⟩, false, 0⟩]
        "u1" true true "s1" "222222" (toISOString ⟨2026, 10, 11, 10, 6, 0, 0⟩)
        1 true false).sessions
      "u1" "111111" ⟨2026, 10, 11, 10, 1, 0, 0⟩).2.success = true ∧
    (prodVerifyDownloadOTP [sampleUser]
      (prodRequestStepUp [sampleUser]
        [⟨"s0", "u1", "111111", "document_download",
          toISOString ⟨2026, 10, 11, 10, 5, 0, 0⟩, false, 0⟩]
        "u1" true true "s1" "222222" (toISOString ⟨2026, 10, 11, 10, 6, 0, 0⟩)
        1 true false).sessions
      "u1" "222222" ⟨2026, 10, 11, 10, 1, 0, 0⟩).2.success = true :=
  have h := c7_new_code_leaves_old_code_valid [sampleUser]
    [⟨"s0", "u1", "111111", "document_download",
      toISOString ⟨2026, 10, 11, 10, 5, 0, 0⟩, false, 0⟩]
    "u1" "s1" "222222" (toISOString ⟨2026, 10, 11, 10, 6, 0, 0⟩) 1 true false
    sampleUser
    ⟨"s0", "u1", "111111", "document_download",
      toISOString ⟨2026, 10, 11, 10, 5, 0, 0⟩, false, 0⟩
    ⟨2026, 10, 11, 10, 1, 0, 0⟩ rfl (by decide) (List.mem_singleton.mpr rfl)
    rfl rfl rfl (by decide) (by decide) (by decide) (by decide)
  ⟨rfl, by decide, List.mem_singleton.mpr rfl, by decide, by decide,
   h.2.2.1, h.2.2.2⟩

/-- C8: a step-up request whose bcrypt password check fails leaves the pending
codes untouched and answers HTTP 401 "Invalid password", in both the dev
in-memory implementation and the ledger-backed production implementation. -/
theorem c8_wrong_password_creates_no_code (users : List User)
    (store : DevStore) (sessions : List OTPSession)
    (userId freshId otp expIso : String) (createdAt nowMs : Nat)
    (envConfigured emailOk smsOk : Bool) (u : User)
    (hu : users.find? (fun v => v.id == userId) = some u) :
    devRequestStepUp users store userId false otp nowMs emailOk smsOk =
      (store, ⟨false, 401, "Invalid password"⟩) ∧
    prodRequestStepUp users sessions userId false envConfigured freshId otp
      expIso createdAt emailOk smsOk =
      ⟨sessions, ⟨false, 401, "Invalid password"⟩, false, false⟩ := by
  constructor
  · unfold devRequestStepUp
    rw [hu]
    exact rfl
  · unfold prodRequestStepUp
    rw [hu]
    exact rfl

/-- Witness for `c8_wrong_password_creates_no_code` at a concrete account and
empty stores. -/
theorem c8_wrong_password_creates_no_code_witness :
    [sampleUser].find? (fun v => v.id == "u1") = some sampleUser ∧
    (devRequestStepUp [sampleUser] (fun _ => none) "u1" false "123456" 0
        true true =
      ((fun _ => none : DevStore), ⟨false, 401, "Invalid password"⟩) ∧
     prodRequestStepUp [sampleUser] [] "u1" false true "s1" "123456"
        "2026-10-11T10:05:00.000Z" 0 true true =
      ⟨[], ⟨false, 401, "Invalid password"⟩, false, false⟩) :=
  ⟨rfl,
   c8_wrong_password_creates_no_code [sampleUser] (fun _ => none) [] "u1" "s1"
     "123456" "2026-10-11T10:05:00.000Z" 0 0 true true true sampleUser rfl⟩

/-- C9: in the dev in-memory implementation, a verify attempt on an expired
stored download code answers the expired-code error *and deletes the stored
entry*; the entry for every other account is untouched, and every subsequent
verify attempt for this account (any nonempty code, any time) answers the
no-code-found error — the failing operation mutates the state. -/
theorem c9_dev_expired_verify_deletes_code (users : List User)
    (store : DevStore) (userId code : String) (u : User) (st : DevOTP)
    (nowMs : Nat)
    (hu : users.find? (fun v => v.id == userId) = some u)
    (hst : store u.id = some st)
    (hexp : st.expiresAt < nowMs)
    (hcode : code ≠ "") :
    (devVerifyDownloadOTP users store userId code nowMs).2 =
      ⟨false, 400, "OTP expired. Please verify your password again."⟩ ∧
    (devVerifyDownloadOTP users store userId code nowMs).1 u.id = none ∧
    (∀ k, k ≠ u.id →
      (devVerifyDownloadOTP users store userId code nowMs).1 k = store k) ∧
    (∀ code2 now2, code2 ≠ "" →
      devVerifyDownloadOTP users
        (devVerifyDownloadOTP users store userId code nowMs).1 userId code2
        now2 =
        ((devVerifyDownloadOTP users store userId code nowMs).1,
         ⟨false, 400, "No OTP found. Please verify your password first."⟩)) := by
  have hbeq : (code == "") = false := beq_eq_false_iff_ne.mpr hcode
  have hout : devVerifyDownloadOTP users store userId code nowMs =
      (fun k => if k == u.id then none else store k,
       ⟨false, 400, "OTP expired. Please verify your password again."⟩) := by
    unfold devVerifyDownloadOTP
    rw [hbeq]
    simp only [Bool.false_eq_true, if_false, hu, hst]
    rw [if_pos hexp]
  refine ⟨by rw [hout], ?_, ?_, ?_⟩
  · rw [hout]
    simp
  · intro k hk
    rw [hout]
    simp [beq_eq_false_iff_ne.mpr hk]
  · intro code2 now2 hc2
    have hb2 : (code2 == "") = false := beq_eq_false_iff_ne.mpr hc2
    rw [hout]
    unfold devVerifyDownloadOTP
    rw [hb2]
    simp only [Bool.false_eq_true, if_false, hu]
    simp

/-- Witness for `c9_dev_expired_verify_deletes_code`: code `123456` expired at
1000 ms, submitted at 2000 ms; the retry with the *correct* code then fails
with the no-code-found error. -/
theorem c9_dev_expired_verify_deletes_code_witness :
    [sampleUser].find? (fun v => v.id == "u1") = some sampleUser ∧
    (fun k => if k == "u1" then some (⟨"123456", 1000⟩ : DevOTP) else none)
      sampleUser.id = some ⟨"123456", 1000⟩ ∧
    (1000 : Nat) < 2000 ∧
    (devVerifyDownloadOTP [sampleUser]
      (fun k => if k == "u1" then some ⟨"123456", 1000⟩ else none)
      "u1" "999999" 2000).2 =
      ⟨false, 400, "OTP expired. Please verify your password again."⟩ ∧
    (devVerifyDownloadOTP [sampleUser]
      (fun k => if k == "u1" then some ⟨"123456", 1000⟩ else none)
      "u1" "999999" 2000).1 sampleUser.id = none ∧
    (devVerifyDownloadOTP [sampleUser]
      (fun k => if k == "u1" then some ⟨"123456", 1000⟩ else none)
      "u1" "999999" 2000).1 "u2" =
      (fun k => if k == "u1" then some (⟨"123456", 1000⟩ : DevOTP) else none)
        "u2" ∧
    devVerifyDownloadOTP [sampleUser]
      (devVerifyDownloadOTP [sampleUser]
        (fun k => if k == "u1" then some ⟨"123456", 1000⟩ else none)
        "u1" "999999" 2000).1 "u1" "123456" 3000 =
      ((devVerifyDownloadOTP [sampleUser]
        (fun k => if k == "u1" then some ⟨"123456", 1000⟩ else none)
        "u1" "999999" 2000).1,
       ⟨false, 400, "No OTP found. Please verify your password first."⟩) :=
  have h := c9_dev_expired_verify_deletes_code [sampleUser]
    (fun k => if k == "u1" then some ⟨"123456", 1000⟩ else none)
    "u1" "999999" sampleUser ⟨"123456", 1000⟩ 2000 rfl rfl (by decide)
    (by decide)
  ⟨rfl, rfl, by decide, h.1, h.2.1, h.2.2.1 "u2" (by decide),
   h.2.2.2 "123456" 3000 (by decide)⟩

/-- C10: deleting a document owned by the caller removes that document, deletes
any pending one-time code stored under its id, leaves every other pending code
and every differently-identified document in place, and afterwards no OTP
verification for the deleted document id can succeed (for any caller, code and
time). -/
theorem c10_delete_document_removes_code_and_frames (docs : List Document)
    (otps : DocOtpStore) (userId docId : String)
    (hex : docs.any (fun d => d.id == docId && d.userId == userId) = true) :
    (handleDeleteDocument docs otps userId docId).2.2.success = true ∧
    (handleDeleteDocument docs otps userId docId).2.1 docId = none ∧
    (∀ k, k ≠ docId →
      (handleDeleteDocument docs otps userId docId).2.1 k = otps k) ∧
    (∀ d, d ∈ docs → d.id ≠ docId →
      d ∈ (handleDeleteDocument docs otps userId docId).1) ∧
    (∀ uid code nowMs,
      (docVerifyOTP (handleDeleteDocument docs otps userId docId).1
        (handleDeleteDocument docs otps userId docId).2.1 uid docId code
        nowMs).2.1.success = false) := by
  have hout : handleDeleteDocument docs otps userId docId =
      (docs.eraseP (fun d => d.id == docId && d.userId == userId),
       fun k => if k == docId then none else otps k,
       ⟨true, 200, "Document deleted successfully"⟩) := by
    unfold handleDeleteDocument
    rw [if_pos hex]
  refine ⟨by rw [hout], by rw [hout]; simp, ?_, ?_, ?_⟩
  · intro k hk
    rw [hout]
    simp [beq_eq_false_iff_ne.mpr hk]
  · intro d hd hdid
    rw [hout]
    exact mem_eraseP_of_not_match hd (by simp [beq_eq_false_iff_ne.mpr hdid])
  · intro uid code nowMs
    rw [hout]
    unfold docVerifyOTP
    cases hf : (docs.eraseP (fun d => d.id == docId && d.userId == userId)).find?
        (fun d => d.id == docId && d.userId == uid) with
    | none => rfl
    | some doc => simp

/-- Witness for `c10_delete_document_removes_code_and_frames`: two documents
with pending codes; deleting `d1` keeps `d2` and its code, and the old `d1`
code no longer verifies. -/
theorem c10_delete_document_removes_code_and_frames_witness :
    [(⟨"d1", "u1", "Doc1", "f1", true⟩ : Document),
     ⟨"d2", "u1", "Doc2", "f2", true⟩].any
      (fun d => d.id == "d1" && d.userId == "u1") = true ∧
    (handleDeleteDocument
      [⟨"d1", "u1", "Doc1", "f1", true⟩, ⟨"d2", "u1", "Doc2", "f2", true⟩]
      (fun k => if k == "d1" then some ⟨"111111", 99999, "e"⟩
        else if k == "d2" then some ⟨"222222", 99999, "e"⟩ else none)
      "u1" "d1").2.2.success = true ∧
    (handleDeleteDocument
      [⟨"d1", "u1", "Doc1", "f1", true⟩, ⟨"d2", "u1", "Doc2", "f2", true⟩]
      (fun k => if k == "d1" then some ⟨"111111", 99999, "e"⟩
        else if k == "d2" then some ⟨"222222", 99999, "e"⟩ else none)
      "u1" "d1").2.1 "d1" = none ∧
    (handleDeleteDocument
      [⟨"d1", "u1", "Doc1", "f1", true⟩, ⟨"d2", "u1", "Doc2", "f2", true⟩]
      (fun k => if k == "d1" then some ⟨"111111", 99999, "e"⟩
        else if k == "d2" then some ⟨"222222", 99999, "e"⟩ else none)
      "u1" "d1").2.1 "d2" = some ⟨"222222", 99999, "e"⟩ ∧
    (⟨"d2", "u1", "Doc2", "f2", true⟩ : Document) ∈
      (handleDeleteDocument
        [⟨"d1", "u1", "Doc1", "f1", true⟩, ⟨"d2", "u1", "Doc2", "f2", true⟩]
        (fun k => if k == "d1" then some ⟨"111111", 99999, "e"⟩
          else if k == "d2" then some ⟨"222222", 99999, "e"⟩ else none)
        "u1" "d1").1 ∧
    (docVerifyOTP
      (handleDeleteDocument
        [⟨"d1", "u1", "Doc1", "f1", true⟩, ⟨"d2", "u1", "Doc2", "f2", true⟩]
        (fun k => if k == "d1" then some ⟨"111111", 99999, "e"⟩
          else if k == "d2" then some ⟨"222222", 99999, "e"⟩ else none)
        "u1" "d1").1
      (handleDeleteDocument
        [⟨"d1", "u1", "Doc1", "f1", true⟩, ⟨"d2", "u1", "Doc2", "f2", true⟩]
        (fun k => if k == "d1" then some ⟨"111111", 99999, "e"⟩
          else if k == "d2" then some ⟨"222222", 99999, "e"⟩ else none)
        "u1" "d1").2.1
      "u1" "d1" "111111" 500).2.1.success = false :=
  have h := c10_delete_document_removes_code_and_frames
    [⟨"d1", "u1", "Doc1", "f1", true⟩, ⟨"d2", "u1", "Doc2", "f2", true⟩]
    (fun k => if k == "d1" then some ⟨"111111", 99999, "e"⟩
      else if k == "d2" then some ⟨"222222", 99999, "e"⟩ else none)
    "u1" "d1" (by decide)
  ⟨by decide, h.1,
   h.2.1,
   by rw [h.2.2.1 "d2" (by decide)]; rfl,
   h.2.2.2.1 ⟨"d2", "u1", "Doc2", "f2", true⟩ (by decide) (by decide),
   h.2.2.2.2 "u1" "111111" 500⟩

end CollegeVault
